import Mathlib

/-!
Verification of the batch validation/aggregation engine of the `validate`
repository (Kubernetes/Terraform manifest validation tool).

The Python source is shallowly embedded: every definition below mirrors a
function, code block or data record of the source files
`validate.py`, `validation_agent.py`, `kubeval_tool.py`, `kubelinter_tool.py`.
Python dicts produced by the external tools are embedded as typed records
(the tools only ever produce the fields and types given here); dicts used
as string-keyed category counters are embedded as insertion-ordered
association lists, which is exactly the behaviour of a Python dict used
with `d[k] = d.get(k, 0) + 1`.

String operations are implemented over `List Char` so that every
definition evaluates inside the kernel (`String.toLower` etc. do not
reduce definitionally).  the Python `str.lower()` method is modelled on the ASCII
range, which covers every keyword the classifiers match against.
-/

/-! ## String utilities (models of Python string primitives) -/

/-- ASCII lowering of one character; model of what `str.lower()` does on
the ASCII range (all classifier keywords are ASCII). -/
def lowerChar (c : Char) : Char :=
  if 'A' ≤ c ∧ c ≤ 'Z' then Char.ofNat (c.toNat + 32) else c

/-- Model of Python `s.lower()`. -/
def lowerStr (s : String) : String := ⟨s.data.map lowerChar⟩

/-- Model of Python `needle in haystack` (substring containment). -/
def strContains (haystack needle : String) : Bool :=
  decide (needle.data.IsInfix haystack.data)

/-- Splits a string at every occurrence of a character, keeping empty
pieces; accumulator-based model of Python `str.split(c)` for a one-char
separator. -/
def splitOnCharAux (c : Char) : List Char → List Char → List String
  | [], acc => [⟨acc.reverse⟩]
  | x :: xs, acc =>
    if x = c then ⟨acc.reverse⟩ :: splitOnCharAux c xs []
    else splitOnCharAux c xs (x :: acc)

/-- Model of Python `s.split(c)` for a single-character separator. -/
def splitOnChar (c : Char) (s : String) : List String := splitOnCharAux c s.data []

/-- Model of `os.path.basename` for POSIX paths as used on the discovered
file lists (the component after the last slash). -/
def basename (p : String) : String := (splitOnChar '/' p).getLastD ""

/-- Sum of the counters of a category-count map
(Python `sum(d.values())`). -/
def sumValues (m : List (String × Nat)) : Nat := (m.map Prod.snd).sum

/-- Counter lookup with default, the model of Python `d.get(k, 0)`. -/
def lookupCount (m : List (String × Nat)) (k : String) : Nat :=
  (m.lookup k).getD 0

/-- Counter increment `d[k] = d.get(k, 0) + 1`: bumps the first entry with
the given key, appends a fresh entry otherwise (Python dicts preserve
insertion order and this is the only mutation the aggregation performs). -/
def bumpCount : List (String × Nat) → String → List (String × Nat)
  | [], k => [(k, 1)]
  | (k', v) :: rest, k =>
    if k' = k then (k', v + 1) :: rest else (k', v) :: bumpCount rest k

/-! ## ErrorClassifier: `validation_agent.py`

`ValidationAgent._categorize_kubeconform_error` (lines 240-263) and
`ValidationAgent._categorize_kubelinter_issue` (lines 265-310). -/

/-- The if/elif chain of `_categorize_kubeconform_error`
(validation_agent.py 244-263) applied to the already-lowered message
(the source binds `error_lower = error_message.lower()` once up front). -/
def kubeconformChain (error_lower : String) : String :=
  if strContains error_lower "schema" || strContains error_lower "validation" then
    "Schema Validation"
  else if strContains error_lower "apiversion" then
    "API Version"
  else if strContains error_lower "kind" then
    "Resource Kind"
  else if strContains error_lower "metadata" then
    "Metadata Issues"
  else if strContains error_lower "spec" then
    "Specification Errors"
  else if strContains error_lower "required" || strContains error_lower "missing" then
    "Missing Required Fields"
  else if strContains error_lower "format" || strContains error_lower "syntax" then
    "Format/Syntax Errors"
  else if strContains error_lower "timeout" then
    "Validation Timeout"
  else if strContains error_lower "not found" then
    "File Not Found"
  else
    "Other Validation Errors"

/-- Model of `_categorize_kubeconform_error` (validation_agent.py 240-263):
ordered case-insensitive keyword matching over the error message. -/
def categorize_kubeconform_error (error_message : String) : String :=
  kubeconformChain (lowerStr error_message)

/-- The `security_checks` keyword list of `_categorize_kubelinter_issue`. -/
def securityChecks : List String :=
  ["run-as-non-root", "privileged-ports", "privilege-escalation-container",
   "read-only-root-filesystem", "non-root-user", "security-context"]

/-- The `resource_checks` keyword list of `_categorize_kubelinter_issue`. -/
def resourceChecks : List String :=
  ["cpu-requirements", "memory-requirements", "resource-requirements",
   "cpu-limits", "memory-limits"]

/-- The `image_checks` keyword list of `_categorize_kubelinter_issue`. -/
def imageChecks : List String := ["latest-tag", "image", "tag"]

/-- The `health_checks` keyword list of `_categorize_kubelinter_issue`. -/
def healthChecks : List String :=
  ["liveness-probe", "readiness-probe", "startup-probe", "health-check", "probe"]

/-- The `availability_checks` keyword list of `_categorize_kubelinter_issue`. -/
def availabilityChecks : List String :=
  ["anti-affinity", "pod-disruption-budget", "replicas", "availability", "disruption"]

/-- The keyword-table chain of `_categorize_kubelinter_issue`
(validation_agent.py 272-310) applied to the already-lowered check name
(the source rebinds `check_name = check_name.lower()` before the tables). -/
def kubelinterChain (check_lower : String) : String :=
  if securityChecks.any (fun check => strContains check_lower check) then
    "Security Configuration"
  else if resourceChecks.any (fun check => strContains check_lower check) then
    "Resource Management"
  else if imageChecks.any (fun check => strContains check_lower check) then
    "Image Configuration"
  else if healthChecks.any (fun check => strContains check_lower check) then
    "Health Monitoring"
  else if availabilityChecks.any (fun check => strContains check_lower check) then
    "Availability & Reliability"
  else
    "Best Practice Violations"

/-- Model of `_categorize_kubelinter_issue` (validation_agent.py 265-310).
The `message` argument exists in the source signature but is never read.
An empty (falsy) check name short-circuits to "Unknown Issue" before any
keyword table is consulted. -/
def categorize_kubelinter_issue (check_name : String) (_message : String) : String :=
  if check_name = "" then "Unknown Issue"
  else kubelinterChain (lowerStr check_name)

/-- The closed set of values `_categorize_kubeconform_error` can return. -/
def kubeconformCategorySet : List String :=
  ["Schema Validation", "API Version", "Resource Kind", "Metadata Issues",
   "Specification Errors", "Missing Required Fields", "Format/Syntax Errors",
   "Validation Timeout", "File Not Found", "Other Validation Errors"]

/-- The closed set of values `_categorize_kubelinter_issue` can return. -/
def kubelinterCategorySet : List String :=
  ["Unknown Issue", "Security Configuration", "Resource Management",
   "Image Configuration", "Health Monitoring", "Availability & Reliability",
   "Best Practice Violations"]

/-- All keywords consulted by `_categorize_kubeconform_error`, in rule order. -/
def kubeconformKeywords : List String :=
  ["schema", "validation", "apiversion", "kind", "metadata", "spec",
   "required", "missing", "format", "syntax", "timeout", "not found"]

/-- All keywords consulted by `_categorize_kubelinter_issue`, in rule order. -/
def kubelinterKeywords : List String :=
  securityChecks ++ resourceChecks ++ imageChecks ++ healthChecks ++ availabilityChecks

/-! ## Recommendation generation: `validation_agent.py` 312-348 -/

/-- Recommendation emitted for schema errors of category "API Version". -/
def recApi : String := "🔄 Update deprecated API versions to current Kubernetes standards"

/-- Recommendation emitted for "Missing Required Fields" errors. -/
def recMissing : String := "📝 Add missing required fields in resource definitions"

/-- Recommendation emitted for "Schema Validation" errors. -/
def recSchema : String := "✅ Fix schema validation errors"

/-- Recommendation emitted for "Security Issues" warnings. -/
def recSecurity : String := "🔐 Address security vulnerabilities and privilege escalations"

/-- Recommendation emitted for "Resource Management" warnings. -/
def recResources : String := "📊 Configure proper resource limits and requests"

/-- Recommendation emitted for "Health Checks" warnings. -/
def recHealth : String := "🏥 Add health checks (liveness and readiness probes)"

/-- Recommendation emitted for "Image Configuration" warnings. -/
def recImage : String := "🖼️ Use specific image tags instead of \x27latest\x27"

/-- The volume-triggered recommendation emitted when the total finding
count exceeds 15 (validation_agent.py 340-343). -/
def recVolume : String := "🎯 Implement automated validation in CI/CD pipeline"

/-- Recommendation emitted for "Deprecated Features" warnings. -/
def recDeprecated : String := "⚠️ Migrate away from deprecated Kubernetes features"

/-- Model of `_generate_combined_recommendations`
(validation_agent.py 312-348): appends canned strings in the fixed order of the source, keyed on category counters. -/
def generate_combined_recommendations
    (error_types warning_types : List (String × Nat)) : List String :=
  (if lookupCount error_types "API Version" > 0 then [recApi] else []) ++
  (if lookupCount error_types "Missing Required Fields" > 0 then [recMissing] else []) ++
  (if lookupCount error_types "Schema Validation" > 0 then [recSchema] else []) ++
  (if lookupCount warning_types "Security Issues" > 0 then [recSecurity] else []) ++
  (if lookupCount warning_types "Resource Management" > 0 then [recResources] else []) ++
  (if lookupCount warning_types "Health Checks" > 0 then [recHealth] else []) ++
  (if lookupCount warning_types "Image Configuration" > 0 then [recImage] else []) ++
  (if sumValues error_types + sumValues warning_types > 15 then [recVolume] else []) ++
  (if lookupCount warning_types "Deprecated Features" > 0 then [recDeprecated] else [])

/-! ## Claim C8 and C9 theorems -/

/-- Helper: membership in a conditional singleton list. -/
theorem mem_ite_singleton {c : Prop} [Decidable c] (a b : String) :
    a ∈ (if c then [b] else []) ↔ c ∧ a = b := by
  split
  · simp [*]
  · simp [*]

/-- C8 (amended): both classifiers are total functions into their fixed
closed category sets; when no keyword rule matches, the kubeconform
classifier falls through to "Other Validation Errors", and the
kube-linter classifier falls through to "Best Practice Violations"
provided the check name is non-empty (an empty check name is mapped to
"Unknown Issue" before any keyword table is consulted). -/
theorem claim_C8 :
    (∀ e, categorize_kubeconform_error e ∈ kubeconformCategorySet
       ∧ (kubeconformKeywords.all (fun k => !(strContains (lowerStr e) k)) = true →
            categorize_kubeconform_error e = "Other Validation Errors"))
  ∧ (∀ c m, categorize_kubelinter_issue c m ∈ kubelinterCategorySet
       ∧ (c ≠ "" →
          kubelinterKeywords.all (fun k => !(strContains (lowerStr c) k)) = true →
            categorize_kubelinter_issue c m = "Best Practice Violations")) := by
  constructor
  · intro e
    constructor
    · unfold categorize_kubeconform_error kubeconformChain
      repeat' split
      all_goals decide
    · intro hall
      have hx : ∀ k ∈ kubeconformKeywords, strContains (lowerStr e) k = false := by
        intro k hk
        simpa using List.all_eq_true.mp hall k hk
      simp [categorize_kubeconform_error, kubeconformChain,
        hx "schema" (by decide), hx "validation" (by decide),
        hx "apiversion" (by decide), hx "kind" (by decide),
        hx "metadata" (by decide), hx "spec" (by decide),
        hx "required" (by decide), hx "missing" (by decide),
        hx "format" (by decide), hx "syntax" (by decide),
        hx "timeout" (by decide), hx "not found" (by decide)]
  · intro c m
    constructor
    · unfold categorize_kubelinter_issue kubelinterChain
      repeat' split
      all_goals decide
    · intro hc hall
      have hx : ∀ k ∈ kubelinterKeywords, strContains (lowerStr c) k = false := by
        intro k hk
        simpa using List.all_eq_true.mp hall k hk
      have hof : ∀ (l : List String), (∀ k ∈ l, k ∈ kubelinterKeywords) →
          l.any (fun k => strContains (lowerStr c) k) = false := by
        intro l hsub
        rw [List.any_eq_false]
        intro k hk
        simp [hx k (hsub k hk)]
      have hsec := hof securityChecks (by intro k hk; simp [kubelinterKeywords]; tauto)
      have hres := hof resourceChecks (by intro k hk; simp [kubelinterKeywords]; tauto)
      have himg := hof imageChecks (by intro k hk; simp [kubelinterKeywords]; tauto)
      have hhea := hof healthChecks (by intro k hk; simp [kubelinterKeywords]; tauto)
      have hava := hof availabilityChecks (by intro k hk; simp [kubelinterKeywords]; tauto)
      simp [categorize_kubelinter_issue, kubelinterChain, hc, hsec, hres, himg, hhea, hava]

/-- C8 counterexample: the empty check name matches no keyword rule, yet
the kube-linter classifier returns "Unknown Issue" rather than falling
through to "Best Practice Violations" (or "Other"). -/
theorem claim_C8_counterexample :
    categorize_kubelinter_issue "" "" = "Unknown Issue"
  ∧ kubelinterKeywords.all (fun k => !(strContains (lowerStr "") k)) = true
  ∧ categorize_kubelinter_issue "" "" ≠ "Best Practice Violations"
  ∧ categorize_kubelinter_issue "" "" ≠ "Other Validation Errors" := by decide

/-- C8 witness: the fall-through clauses of `claim_C8` at concrete inputs. -/
theorem claim_C8_witness :
    categorize_kubeconform_error "xyz" = "Other Validation Errors"
  ∧ categorize_kubelinter_issue "zz-check" "" = "Best Practice Violations" :=
  ⟨(claim_C8.1 "xyz").2 (by decide),
   (claim_C8.2 "zz-check" "").2 (by decide) (by decide)⟩

/-- C9: the volume-triggered recommendation is in the generated list
exactly when the total finding count (sum of all error-category counts
plus all warning-category counts) exceeds 15, for every pair of
category-count maps. -/
theorem claim_C9 (error_types warning_types : List (String × Nat)) :
    recVolume ∈ generate_combined_recommendations error_types warning_types
      ↔ sumValues error_types + sumValues warning_types > 15 := by
  have h1 : recVolume ≠ recApi := by decide
  have h2 : recVolume ≠ recMissing := by decide
  have h3 : recVolume ≠ recSchema := by decide
  have h4 : recVolume ≠ recSecurity := by decide
  have h5 : recVolume ≠ recResources := by decide
  have h6 : recVolume ≠ recHealth := by decide
  have h7 : recVolume ≠ recImage := by decide
  have h8 : recVolume ≠ recDeprecated := by decide
  simp only [generate_combined_recommendations, List.mem_append, mem_ite_singleton,
    eq_false h1, eq_false h2, eq_false h3, eq_false h4, eq_false h5, eq_false h6,
    eq_false h7, eq_false h8, and_false, and_true, or_false, false_or]

/-- C9 witness: concrete instantiation of the iff in both directions. -/
theorem claim_C9_witness :
    recVolume ∈ generate_combined_recommendations [("API Version", 16)] []
  ∧ recVolume ∉ generate_combined_recommendations [("API Version", 15)] [] :=
  ⟨(claim_C9 [("API Version", 16)] []).mpr (by decide),
   fun h => absurd ((claim_C9 [("API Version", 15)] []).mp h) (by decide)⟩

/-! ## Checker tool wrappers: `kubeval_tool.py` and `kubelinter_tool.py`

Each wrapper runs one subprocess per file and normalises the outcome into
a result dict.  The subprocess itself is external, so its behaviour is an
explicit argument (`ProcOutcome` / `LintProcOutcome`); the JSON parse of
the tool stdout is abstracted to its outcome (`none` models both an empty
stdout and a `json.JSONDecodeError`, which the source treats alike). -/

/-- Value of the `kubeval_output` key of a result dict: either the parsed
stdout JSON or the fallback empty results object. -/
inductive KubevalJson where
  | parsed (raw : String)
  | emptyResults
deriving DecidableEq, Repr

/-- Result dict of `KubevalTool.validate_file` (kubeval_tool.py 30-86).
The failure branches of the source omit the `kubeval_output` and
`return_code` keys, embedded here as `none`. -/
structure KubevalResult where
  file : String
  valid : Bool
  errors : List String
  kubeval_output : Option KubevalJson := none
  return_code : Option Int := none
deriving DecidableEq, Repr

/-- One entry of the kube-linter `Reports` array (only the keys the
pipeline reads). -/
structure KubelinterReport where
  Check : String
  Message : String
deriving DecidableEq, Repr

/-- Parsed kube-linter stdout (the `Reports` key read downstream). -/
structure KubelinterOutput where
  Reports : List KubelinterReport
deriving DecidableEq, Repr

/-- Result dict of `KubeLinterTool.lint_file` (kubelinter_tool.py 30-88).
Every branch of the source sets `kubelinter_output`; it is `Option`-typed
because the aggregation treats a missing/None value defensively. -/
structure KubelinterResult where
  file : String
  valid : Bool
  kubelinter_output : Option KubelinterOutput
  errors : List String
  return_code : Option Int := none
deriving DecidableEq, Repr

/-- Outcome of the kubeval subprocess for one file. -/
inductive ProcOutcome where
  | completed (returncode : Int) (stdoutJson : Option String) (stderr : String)
  | timeout
  | exc (msg : String)
deriving DecidableEq, Repr

/-- Outcome of the kube-linter subprocess for one file; `reports = none`
models an empty or unparsable stdout (fallback `Reports = []`). -/
inductive LintProcOutcome where
  | completed (returncode : Int) (reports : Option (List KubelinterReport)) (stderr : String)
  | timeout
  | exc (msg : String)
deriving DecidableEq, Repr

/-- True iff the subprocess outcome is a process-level failure or a
nonzero exit (the source computes `valid` as `returncode == 0`). -/
def procFailed : ProcOutcome → Bool
  | .completed rc _ _ => rc != 0
  | .timeout => true
  | .exc _ => true

/-- True iff the kube-linter subprocess outcome is a process-level
failure or a nonzero exit. -/
def lintProcFailed : LintProcOutcome → Bool
  | .completed rc _ _ => rc != 0
  | .timeout => true
  | .exc _ => true

namespace KubevalTool

/-- Model of `KubevalTool.validate_file` (kubeval_tool.py 30-86):
`file_exists` is the `os.path.exists` check, `run` the subprocess
outcome.  `errors` is `result.stderr.split(chr(10)) if result.stderr
else []` in the completed branch. -/
def validate_file (file_path : String) (file_exists : Bool) (run : ProcOutcome) :
    KubevalResult :=
  if !file_exists then
    { file := file_path, valid := false,
      errors := ["File not found: " ++ file_path] }
  else
    match run with
    | .completed returncode stdoutJson stderr =>
        { file := file_path
          valid := returncode == 0
          kubeval_output :=
            some (match stdoutJson with
                  | some j => .parsed j
                  | none => .emptyResults)
          errors := if stderr = "" then [] else splitOnChar '\n' stderr
          return_code := some returncode }
    | .timeout =>
        { file := file_path, valid := false,
          errors := ["Validation timeout after 30 seconds"] }
    | .exc msg =>
        { file := file_path, valid := false,
          errors := ["Validation error: " ++ msg] }

end KubevalTool

namespace KubeLinterTool

/-- Model of `KubeLinterTool.lint_file` (kubelinter_tool.py 30-88): the
same shape as the kubeval wrapper, except every branch also sets
`kubelinter_output` (fallback `Reports = []`). -/
def lint_file (file_path : String) (file_exists : Bool) (run : LintProcOutcome) :
    KubelinterResult :=
  if !file_exists then
    { file := file_path, valid := false,
      kubelinter_output := some ⟨[]⟩,
      errors := ["File not found: " ++ file_path] }
  else
    match run with
    | .completed returncode reports stderr =>
        { file := file_path
          valid := returncode == 0
          kubelinter_output := some ⟨reports.getD []⟩
          errors := if stderr = "" then [] else splitOnChar '\n' stderr
          return_code := some returncode }
    | .timeout =>
        { file := file_path, valid := false,
          kubelinter_output := some ⟨[]⟩,
          errors := ["Linting timeout after 30 seconds"] }
    | .exc msg =>
        { file := file_path, valid := false,
          kubelinter_output := some ⟨[]⟩,
          errors := ["Linting error: " ++ msg] }

end KubeLinterTool

/-! ## Claim C4 -/

/-- C4 counterexample: `valid` is computed from the return code alone and
the findings list from stderr alone, so the two directions of the claimed
iff both fail: a nonzero exit with silent stderr gives `valid = false`
with an empty findings list and no tool error, and a zero exit with
stderr chatter gives `valid = true` with a non-empty findings list.  (The
kube-linter case also has an empty `Reports` list, so no finding of any
kind accompanies a `valid = true` result with non-empty `errors`.) -/
theorem claim_C4_counterexample :
    ((KubevalTool.validate_file "deploy.yaml" true (.completed 1 none "")).valid = false
     ∧ (KubevalTool.validate_file "deploy.yaml" true (.completed 1 none "")).errors = [])
  ∧ ((KubeLinterTool.lint_file "deploy.yaml" true (.completed 0 none "warning: x")).valid = true
     ∧ (KubeLinterTool.lint_file "deploy.yaml" true (.completed 0 none "warning: x")).errors
         = ["warning: x"]
     ∧ (KubeLinterTool.lint_file "deploy.yaml" true
          (.completed 0 none "warning: x")).kubelinter_output = some ⟨[]⟩) := by
  decide

/-- C4 (amended): for every generated CheckResult the `file` field equals
the input path (hence is non-empty exactly when the input path is);
`valid` is false iff the file was missing, the subprocess failed
(timeout/exception) or its return code was nonzero — independently of
the findings list; and in the missing-file, timeout and exception
branches the findings list is the non-empty tool-error message. -/
theorem claim_C4 :
    (∀ fp ex run,
       (KubevalTool.validate_file fp ex run).file = fp
       ∧ ((KubevalTool.validate_file fp ex run).valid = false
            ↔ (ex = false ∨ procFailed run = true))
       ∧ ((ex = false ∨ run = .timeout ∨ (∃ m, run = .exc m)) →
            (KubevalTool.validate_file fp ex run).errors ≠ []))
  ∧ (∀ fp ex run,
       (KubeLinterTool.lint_file fp ex run).file = fp
       ∧ ((KubeLinterTool.lint_file fp ex run).valid = false
            ↔ (ex = false ∨ lintProcFailed run = true))
       ∧ ((ex = false ∨ run = .timeout ∨ (∃ m, run = .exc m)) →
            (KubeLinterTool.lint_file fp ex run).errors ≠ [])) := by
  constructor
  · intro fp ex run
    cases ex <;> cases run <;>
      simp [KubevalTool.validate_file, procFailed]
  · intro fp ex run
    cases ex <;> cases run <;>
      simp [KubeLinterTool.lint_file, lintProcFailed]

/-- C4 witness: the amended theorem applied at a missing file and at a
nonzero return code. -/
theorem claim_C4_witness :
    (KubevalTool.validate_file "a.yaml" false (.completed 0 none "")).errors ≠ []
  ∧ ((KubeLinterTool.lint_file "b.yaml" true .timeout).valid = false) :=
  ⟨(claim_C4.1 "a.yaml" false (.completed 0 none "")).2.2 (Or.inl rfl),
   ((claim_C4.2 "b.yaml" true .timeout).2.1).mpr (Or.inr rfl)⟩

/-! ## FileSetPartitioner: `validate.py` 264-266 -/

/-- Fuel-driven recursion producing the slices
`k8s_files[i : i + batch_size]` of the batching list
comprehension of the source; the fuel (instantiated with the list length) bounds the
number of slices whenever the batch size is positive. -/
def partitionGo (n : Nat) : Nat → List α → List (List α)
  | 0, _ => []
  | _, [] => []
  | fuel + 1, x :: xs => ((x :: xs).take n) :: partitionGo n fuel ((x :: xs).drop n)

/-- Model of `batches = [k8s_files[i:i + batch_size] for i in
range(0, len(k8s_files), batch_size)]` (validate.py 265).  For a batch
size of 0 the Python `range` raises ValueError, so every theorem below
assumes a positive batch size. -/
def partitionBatches (n : Nat) (files : List α) : List (List α) :=
  partitionGo n files.length files

/-- Helper: the partitioner sends the empty list to the empty batch list
at any fuel. -/
theorem partitionGo_nil (n : Nat) (fuel : Nat) : partitionGo n fuel ([] : List α) = [] := by
  cases fuel <;> rfl

/-- Helper: fuel irrelevance of `partitionGo` above the list length. -/
theorem partitionGo_fuel (n : Nat) (hn : 0 < n) :
    ∀ fuel₁ fuel₂ (xs : List α), xs.length ≤ fuel₁ → xs.length ≤ fuel₂ →
      partitionGo n fuel₁ xs = partitionGo n fuel₂ xs := by
  intro fuel₁
  induction fuel₁ with
  | zero =>
    intro fuel₂ xs h₁ _
    have : xs = [] := List.length_eq_zero.mp (Nat.le_antisymm h₁ (Nat.zero_le _))
    subst this
    rw [partitionGo_nil, partitionGo_nil]
  | succ f ih =>
    intro fuel₂ xs h₁ h₂
    match xs with
    | [] => rw [partitionGo_nil, partitionGo_nil]
    | x :: xs =>
      match fuel₂ with
      | 0 => simp at h₂
      | f₂ + 1 =>
        show ((x :: xs).take n) :: partitionGo n f ((x :: xs).drop n)
           = ((x :: xs).take n) :: partitionGo n f₂ ((x :: xs).drop n)
        have hd : ((x :: xs).drop n).length ≤ f := by
          simp only [List.length_drop, List.length_cons] at *
          omega
        have hd₂ : ((x :: xs).drop n).length ≤ f₂ := by
          simp only [List.length_drop, List.length_cons] at *
          omega
        rw [ih _ _ hd hd₂]

/-- Helper: concatenating the batches restores the file list. -/
theorem partitionGo_join (n : Nat) (hn : 0 < n) :
    ∀ fuel (xs : List α), xs.length ≤ fuel → (partitionGo n fuel xs).flatten = xs := by
  intro fuel
  induction fuel with
  | zero =>
    intro xs h
    have : xs = [] := List.length_eq_zero.mp (Nat.le_antisymm h (Nat.zero_le _))
    subst this
    simp [partitionGo_nil]
  | succ f ih =>
    intro xs h
    match xs with
    | [] => simp [partitionGo_nil]
    | x :: xs =>
      have hd : ((x :: xs).drop n).length ≤ f := by
        simp only [List.length_drop, List.length_cons] at *
        omega
      show (((x :: xs).take n) :: partitionGo n f ((x :: xs).drop n)).flatten = x :: xs
      simp only [List.flatten_cons, ih _ hd, List.take_append_drop]

/-- Helper: every batch has at most `n` elements. -/
theorem partitionGo_length_le (n : Nat) :
    ∀ fuel (xs : List α) b, b ∈ partitionGo n fuel xs → b.length ≤ n := by
  intro fuel
  induction fuel with
  | zero => intro xs b hb; simp [partitionGo] at hb
  | succ f ih =>
    intro xs b hb
    match xs with
    | [] => simp [partitionGo_nil] at hb
    | x :: xs =>
      rcases List.mem_cons.mp hb with h | h
      · subst h
        simp [List.length_take]
      · exact ih _ _ h

/-- Helper: every batch except possibly the last has exactly `n`
elements. -/
theorem partitionGo_full (n : Nat) :
    ∀ fuel (xs : List α) i, i + 1 < (partitionGo n fuel xs).length →
      ((partitionGo n fuel xs).getD i []).length = n := by
  intro fuel
  induction fuel with
  | zero => intro xs i h; simp [partitionGo] at h
  | succ f ih =>
    intro xs i h
    match xs with
    | [] => rw [partitionGo_nil] at h; simp at h
    | x :: xs =>
      match i with
      | 0 =>
        have hrest : partitionGo n f ((x :: xs).drop n) ≠ [] := by
          intro hempty
          rw [show partitionGo n (f + 1) (x :: xs)
            = ((x :: xs).take n) :: partitionGo n f ((x :: xs).drop n) from rfl, hempty] at h
          simp at h
        have hdrop : (x :: xs).drop n ≠ [] := by
          intro hempty
          rw [hempty, partitionGo_nil] at hrest
          exact hrest rfl
        have hlen : n < (x :: xs).length := by
          by_contra hle
          push_neg at hle
          exact hdrop (List.drop_eq_nil_of_le hle)
        show (List.getD (((x :: xs).take n) :: partitionGo n f ((x :: xs).drop n)) 0 []).length = n
        simp only [List.getD_cons_zero, List.length_take, List.length_cons] at *
        omega
      | i + 1 =>
        have h' : i + 1 < (partitionGo n f ((x :: xs).drop n)).length := by
          rw [show partitionGo n (f + 1) (x :: xs)
            = ((x :: xs).take n) :: partitionGo n f ((x :: xs).drop n) from rfl] at h
          simpa using h
        show (List.getD (((x :: xs).take n) :: partitionGo n f ((x :: xs).drop n)) (i + 1) []).length = n
        rw [List.getD_cons_succ]
        exact ih _ i h'

/-- C2: for every file list and every positive batch size, the batches
concatenate back to the file list exactly (no file omitted or
duplicated), every batch has size at most `n`, and every batch except
possibly the last has size exactly `n`. -/
theorem claim_C2 (F : List String) (n : Nat) (hn : 0 < n) :
    (partitionBatches n F).flatten = F
  ∧ (∀ b ∈ partitionBatches n F, b.length ≤ n)
  ∧ (∀ i, i + 1 < (partitionBatches n F).length →
       ((partitionBatches n F).getD i []).length = n) :=
  ⟨partitionGo_join n hn F.length F le_rfl,
   fun b hb => partitionGo_length_le n F.length F b hb,
   fun i h => partitionGo_full n F.length F i h⟩

/-- C2 witness: the partition law evaluated on a five-file list with
batch size 2. -/
theorem claim_C2_witness :
    (partitionBatches 2 ["a", "b", "c", "d", "e"]).flatten = ["a", "b", "c", "d", "e"]
  ∧ (∀ b ∈ partitionBatches 2 ["a", "b", "c", "d", "e"], b.length ≤ 2) :=
  ⟨(claim_C2 ["a", "b", "c", "d", "e"] 2 (by decide)).1,
   (claim_C2 ["a", "b", "c", "d", "e"] 2 (by decide)).2.1⟩

/-! ## FixSuggester: `validation_agent.py` 350-462 -/

/-- A fix record (`Fix` itself is taken by Mathlib and `example` is a
Lean keyword, hence `FixRecord` / `exampleText`). -/
structure FixRecord where
  file : String
  type : String
  issue : String
  fix : String
  exampleText : String
deriving DecidableEq, Repr

/-- Model of `_generate_kubeconform_fix` (validation_agent.py 382-411):
message-keyword lookup for schema errors; `none` when no branch matches. -/
def generate_kubeconform_fix (file_path : String) (error : String) : Option FixRecord :=
  if strContains (lowerStr error) "apiversion" then
    some { file := file_path, type := "API Version Fix", issue := error,
           fix := "Update the apiVersion field to a supported version for your Kubernetes cluster",
           exampleText := "apiVersion: apps/v1  # instead of apps/v1beta1" }
  else if strContains (lowerStr error) "missing" && strContains (lowerStr error) "required" then
    some { file := file_path, type := "Missing Field Fix", issue := error,
           fix := "Add the required field mentioned in the error",
           exampleText := "Add missing selector, labels, or other required fields" }
  else if strContains (lowerStr error) "schema" then
    some { file := file_path, type := "Schema Fix", issue := error,
           fix := "Correct the field name, type, or structure according to Kubernetes schema",
           exampleText := "Check field names and ensure proper YAML structure" }
  else none

/-- Model of `_generate_kubelinter_fix` (validation_agent.py 413-462):
static `fixes_map` keyed on the check name, with a generic
"Best Practice Fix" fallback, so the suggester is total. -/
def generate_kubelinter_fix (file_path : String) (report : KubelinterReport) : FixRecord :=
  if report.Check = "no-read-only-root-fs" then
    { file := file_path, type := "Security Fix", issue := report.Message,
      fix := "Set readOnlyRootFilesystem: true in securityContext",
      exampleText := "securityContext:\n  readOnlyRootFilesystem: true" }
  else if report.Check = "no-resources" then
    { file := file_path, type := "Resource Limits Fix", issue := report.Message,
      fix := "Add resource requests and limits to container spec",
      exampleText := "resources:\n  requests:\n    cpu: 100m\n    memory: 128Mi\n  limits:\n    cpu: 500m\n    memory: 256Mi" }
  else if report.Check = "no-liveness-probe" then
    { file := file_path, type := "Health Check Fix", issue := report.Message,
      fix := "Add livenessProbe to container spec",
      exampleText := "livenessProbe:\n  httpGet:\n    path: /health\n    port: 8080\n  initialDelaySeconds: 30\n  periodSeconds: 10" }
  else if report.Check = "no-readiness-probe" then
    { file := file_path, type := "Health Check Fix", issue := report.Message,
      fix := "Add readinessProbe to container spec",
      exampleText := "readinessProbe:\n  httpGet:\n    path: /ready\n    port: 8080\n  initialDelaySeconds: 5\n  periodSeconds: 5" }
  else if report.Check = "latest-tag" then
    { file := file_path, type := "Image Tag Fix", issue := report.Message,
      fix := "Use specific image tags instead of \x27latest\x27",
      exampleText := "image: nginx:1.21.0  # instead of nginx:latest" }
  else
    { file := file_path, type := "Best Practice Fix", issue := report.Message,
      fix := "Address the " ++ report.Check ++ " check violation",
      exampleText := "Refer to Kubernetes best practices documentation" }

/-- Model of `_generate_fixes` (validation_agent.py 350-380): kubeconform
fixes for invalid results first, then kube-linter fixes for every report. -/
def generate_fixes (kubeconform_results : List KubevalResult)
    (kubelinter_results : List KubelinterResult) : List FixRecord :=
  (kubeconform_results.foldl
    (fun acc r =>
      if r.valid then acc
      else acc ++ r.errors.filterMap (generate_kubeconform_fix r.file)) [])
  ++ (kubelinter_results.foldl
    (fun acc r =>
      match r.kubelinter_output with
      | none => acc
      | some out => acc ++ out.Reports.map (generate_kubelinter_fix r.file)) [])

/-! ## AggregationEngine: `ValidationAgent.analyze_combined_results`
(validation_agent.py 37-130) -/

/-- The `ValidationSummary` dataclass (validation_agent.py 9-20). -/
structure ValidationSummary where
  total_files : Nat
  valid_files : Nat
  invalid_files : Nat
  total_errors : Nat
  total_warnings : Nat
  error_types : List (String × Nat)
  warning_types : List (String × Nat)
  recommendations : List String
  fixes : List FixRecord
deriving DecidableEq, Repr

/-- The message of the `AttributeError` raised by
`self._categorize_error(error)` (validation_agent.py 85): no method of
that name exists on `ValidationAgent` — only `_categorize_kubeconform_error`
is defined (and never called). -/
def attributeErrorMsg : String :=
  "\x27ValidationAgent\x27 object has no attribute \x27_categorize_error\x27"

/-- The kubeconform loop of `analyze_combined_results`
(validation_agent.py 66-86): counts valid/invalid results, then (for a
result with a non-empty `errors` list) executes `total_errors +=
len(errors)` and enters the per-error categorisation loop, whose first
iteration calls the undefined `self._categorize_error` and raises
`AttributeError`, so the accumulated totals are discarded and the
analysis aborts. -/
def processKubeconformResults :
    List KubevalResult → Nat → Nat → Nat → List (String × Nat) →
      Except String (Nat × Nat × Nat × List (String × Nat))
  | [], valid_files, invalid_files, total_errors, error_types =>
      .ok (valid_files, invalid_files, total_errors, error_types)
  | r :: rs, valid_files, invalid_files, total_errors, error_types =>
      let valid_files' := if r.valid then valid_files + 1 else valid_files
      let invalid_files' := if r.valid then invalid_files else invalid_files + 1
      if r.errors.isEmpty then
        processKubeconformResults rs valid_files' invalid_files' total_errors error_types
      else
        .error attributeErrorMsg

/-- The inner report loop of the kube-linter half of
`analyze_combined_results` (validation_agent.py 102-112): every report
increments `total_warnings` and bumps exactly one category counter
(the cumulated state is the pair `(total_warnings, warning_types)`). -/
def processReports : Nat × List (String × Nat) → List KubelinterReport →
    Nat × List (String × Nat)
  | acc, [] => acc
  | acc, rep :: reports =>
      processReports
        (acc.1 + 1, bumpCount acc.2 (categorize_kubelinter_issue rep.Check rep.Message))
        reports

/-- The kube-linter result loop of `analyze_combined_results`
(validation_agent.py 88-112): results with a missing/None
`kubelinter_output` are skipped; otherwise the `Reports` list is folded. -/
def processKubelinterResultsGo : List KubelinterResult → Nat × List (String × Nat) →
    Nat × List (String × Nat)
  | [], acc => acc
  | r :: rs, acc =>
    match r.kubelinter_output with
    | none => processKubelinterResultsGo rs acc
    | some out => processKubelinterResultsGo rs (processReports acc out.Reports)

/-- The kube-linter half of `analyze_combined_results`, started on the
zero-initialised counters of lines 62-64. -/
def processKubelinterResults (kubelinter_results : List KubelinterResult) :
    Nat × List (String × Nat) :=
  processKubelinterResultsGo kubelinter_results (0, [])

/-- Model of `analyze_combined_results` (validation_agent.py 37-130).
`none` input entries model the `None` results filtered at lines 47-48;
`total_files` is the distinct count of non-empty `file` values across
both filtered lists (line 54-57).  The result is `Except`-valued because
the kubeconform half raises `AttributeError` on any non-empty error list
(see `processKubeconformResults`). -/
def analyze_combined_results (kubeconform_input : List (Option KubevalResult))
    (kubelinter_input : List (Option KubelinterResult)) :
    Except String ValidationSummary :=
  let kubeconform_results := kubeconform_input.filterMap id
  let kubelinter_results := kubelinter_input.filterMap id
  let total_files :=
    (((kubeconform_results.map KubevalResult.file).filter (fun f => f != ""))
      ++ ((kubelinter_results.map KubelinterResult.file).filter (fun f => f != ""))).eraseDups.length
  match processKubeconformResults kubeconform_results 0 0 0 [] with
  | .error e => .error e
  | .ok quad =>
      let klout := processKubelinterResults kubelinter_results
      .ok { total_files := total_files
            valid_files := quad.1
            invalid_files := quad.2.1
            total_errors := quad.2.2.1
            total_warnings := klout.1
            error_types := quad.2.2.2
            warning_types := klout.2
            recommendations := generate_combined_recommendations quad.2.2.2 klout.2
            fixes := generate_fixes kubeconform_results kubelinter_results }

/-! ## Aggregation lemmas and claims C5, C10 -/

/-- Helper: bumping a category counter raises the value sum by exactly 1. -/
theorem sumValues_bumpCount (m : List (String × Nat)) (k : String) :
    sumValues (bumpCount m k) = sumValues m + 1 := by
  induction m with
  | nil => simp [bumpCount, sumValues]
  | cons p rest ih =>
    obtain ⟨k', v⟩ := p
    by_cases h : k' = k
    · simp [bumpCount, h, sumValues]
      omega
    · simp [bumpCount, h, sumValues] at ih ⊢
      omega

/-- Helper: the report loop preserves the invariant that the category
counters sum to the warning total. -/
theorem processReports_inv :
    ∀ (reports : List KubelinterReport) (acc : Nat × List (String × Nat)),
      sumValues acc.2 = acc.1 →
      sumValues (processReports acc reports).2 = (processReports acc reports).1 := by
  intro reports
  induction reports with
  | nil => intro acc h; simpa [processReports]
  | cons rep reports ih =>
    intro acc h
    rw [processReports]
    exact ih _ (by simp [sumValues_bumpCount, h])

/-- Helper: the kube-linter result loop preserves the same invariant. -/
theorem processKubelinterResultsGo_inv :
    ∀ (rs : List KubelinterResult) (acc : Nat × List (String × Nat)),
      sumValues acc.2 = acc.1 →
      sumValues (processKubelinterResultsGo rs acc).2
        = (processKubelinterResultsGo rs acc).1 := by
  intro rs
  induction rs with
  | nil => intro acc h; simpa [processKubelinterResultsGo]
  | cons r rs ih =>
    intro acc h
    rw [processKubelinterResultsGo]
    cases r.kubelinter_output with
    | none => exact ih _ h
    | some out => exact ih _ (processReports_inv _ _ h)

/-- Helper: the category counters of the kube-linter half sum to the
warning total. -/
theorem processKubelinterResults_inv (rs : List KubelinterResult) :
    sumValues (processKubelinterResults rs).2 = (processKubelinterResults rs).1 :=
  processKubelinterResultsGo_inv rs (0, []) (by simp [sumValues])

/-- Helper: when the kubeconform loop returns (no result carried a
non-empty error list), each result incremented exactly one of the
valid/invalid counters and the error counters are the initial ones. -/
theorem processKubeconformResults_ok :
    ∀ (rs : List KubevalResult) (vf inv te : Nat) (et : List (String × Nat))
      (vf' inv' te' : Nat) (et' : List (String × Nat)),
      processKubeconformResults rs vf inv te et = .ok (vf', inv', te', et') →
      vf' + inv' = vf + inv + rs.length ∧ te' = te ∧ et' = et := by
  intro rs
  induction rs with
  | nil =>
    intro vf inv te et vf' inv' te' et' h
    simp [processKubeconformResults] at h
    obtain ⟨h1, h2, h3, h4⟩ := h
    subst h1; subst h2; subst h3; subst h4
    exact ⟨by simp, rfl, rfl⟩
  | cons r rs ih =>
    intro vf inv te et vf' inv' te' et' h
    by_cases he : r.errors.isEmpty
    · simp only [processKubeconformResults, he, if_true] at h
      cases hv : r.valid with
      | true =>
        simp only [hv, if_true] at h
        obtain ⟨h1, h2, h3⟩ := ih _ _ _ _ _ _ _ _ h
        refine ⟨?_, h2, h3⟩
        rw [List.length_cons]
        omega
      | false =>
        simp only [hv, Bool.false_eq_true, if_false] at h
        obtain ⟨h1, h2, h3⟩ := ih _ _ _ _ _ _ _ _ h
        refine ⟨?_, h2, h3⟩
        rw [List.length_cons]
        omega
    · simp only [processKubeconformResults, he, if_false] at h
      cases h

/-- C5: in every summary the aggregation produces, the category counters
sum to the corresponding totals.  (The error half is degenerate on the
current source: any input with a non-empty schema-error list makes
`analyze_combined_results` raise `AttributeError` before a summary
exists — see `processKubeconformResults` — so every produced summary has
`total_errors = 0` and an empty `error_types` map; the warning half is
the substantive invariant.) -/
theorem claim_C5 (kubeconform_input : List (Option KubevalResult))
    (kubelinter_input : List (Option KubelinterResult)) (s : ValidationSummary)
    (h : analyze_combined_results kubeconform_input kubelinter_input = .ok s) :
    sumValues s.error_types = s.total_errors
  ∧ sumValues s.warning_types = s.total_warnings := by
  simp only [analyze_combined_results] at h
  cases hp : processKubeconformResults (kubeconform_input.filterMap id) 0 0 0 [] with
  | error e => rw [hp] at h; cases h
  | ok quad =>
    rw [hp] at h
    obtain ⟨vf, inv, te, et⟩ := quad
    injection h with h
    subst h
    obtain ⟨hsum, hte, het⟩ :=
      processKubeconformResults_ok _ 0 0 0 [] _ _ _ _ hp
    constructor
    · simp [hte, het, sumValues]
    · exact processKubelinterResults_inv _

/-- Concrete kube-linter result used by aggregation witnesses: one file
with two warnings in two different categories. -/
def klWitnessResult : KubelinterResult :=
  { file := "app/deploy.yaml", valid := false,
    kubelinter_output := some ⟨[⟨"no-resources", "container has no resource limits"⟩,
                               ⟨"latest-tag", "image uses the latest tag"⟩]⟩,
    errors := [] }

/-- C5 witness: the invariant evaluated on a concrete two-warning input. -/
theorem claim_C5_witness :
    (match analyze_combined_results [] [some klWitnessResult] with
     | .ok s => sumValues s.error_types = s.total_errors
                ∧ sumValues s.warning_types = s.total_warnings
     | .error _ => False) :=
  claim_C5 [] [some klWitnessResult] _ rfl

/-- Concrete kubeconform result used by aggregation witnesses. -/
def kvWitnessResult : KubevalResult :=
  { file := "app/deploy.yaml", valid := true, errors := [] }

/-- C10: in every summary the aggregation produces, `valid_files +
invalid_files` equals the number of non-None entries of the kubeconform
result list alone (lint results never contribute to either counter),
`total_files` is the distinct count of non-empty file names across both
lists, and the two quantities can differ. -/
theorem claim_C10 :
    (∀ kubeconform_input kubelinter_input s,
       analyze_combined_results kubeconform_input kubelinter_input = .ok s →
         s.valid_files + s.invalid_files = (kubeconform_input.filterMap id).length
         ∧ s.total_files =
             ((((kubeconform_input.filterMap id).map KubevalResult.file).filter
                 (fun f => f != ""))
               ++ (((kubelinter_input.filterMap id).map KubelinterResult.file).filter
                 (fun f => f != ""))).eraseDups.length)
  ∧ (∃ kubeconform_input kubelinter_input s,
       analyze_combined_results kubeconform_input kubelinter_input = .ok s
       ∧ s.valid_files + s.invalid_files ≠ s.total_files) := by
  constructor
  · intro kubeconform_input kubelinter_input s h
    simp only [analyze_combined_results] at h
    cases hp : processKubeconformResults (kubeconform_input.filterMap id) 0 0 0 [] with
    | error e => rw [hp] at h; cases h
    | ok quad =>
      rw [hp] at h
      obtain ⟨vf, inv, te, et⟩ := quad
      injection h with h
      subst h
      obtain ⟨hsum, -, -⟩ := processKubeconformResults_ok _ 0 0 0 [] _ _ _ _ hp
      exact ⟨by simpa using hsum, rfl⟩
  · exact ⟨[], [some klWitnessResult], _, rfl, by decide⟩

/-- C10 witness: the universal half applied at a concrete input with one
dict entry and one None entry. -/
theorem claim_C10_witness :
    (match analyze_combined_results [some kvWitnessResult, none] [] with
     | .ok s => s.valid_files + s.invalid_files = 1
     | .error _ => False) :=
  (claim_C10.1 [some kvWitnessResult, none] [] _ rfl).1

/-! ## Claim C1: incremental folding

The spec-level `fold(existing, newResults)` corresponds in the source to
extending the accumulated result lists (validate.py 307-309) and
recomputing the summary from the full union at the end (validate.py
440 via `analyze_combined_results`).  The fold state is therefore the
pair of accumulated result lists; the summary is recomputed, never
merged. -/

/-- The accumulated state of the batch loop: `all_kubeconform_results`
and `all_kubelinter_results` (validate.py 244-245). -/
structure FoldState where
  all_kubeconform_results : List KubevalResult
  all_kubelinter_results : List KubelinterResult
deriving DecidableEq, Repr

/-- The spec-level `fold`: starting from nothing installs the new
results; folding into an existing state appends them (the source
statements `all_kubeconform_results.extend(...)` / `all_kubelinter_results.extend(...)`,
validate.py 307-309). -/
def foldResults (existing : Option FoldState)
    (newKubeconform : List KubevalResult) (newKubelinter : List KubelinterResult) :
    FoldState :=
  match existing with
  | none => ⟨newKubeconform, newKubelinter⟩
  | some st => ⟨st.all_kubeconform_results ++ newKubeconform,
                st.all_kubelinter_results ++ newKubelinter⟩

/-- The summary of a fold state: `analyze_combined_results` recomputed on
the accumulated union (validate.py 440, validation_agent.py 152). -/
def summaryOf (st : FoldState) : Except String ValidationSummary :=
  analyze_combined_results (st.all_kubeconform_results.map some)
    (st.all_kubelinter_results.map some)

/-- The extend-per-batch loop of `_process_all_batches` over a list of
per-batch result pairs (validate.py 307-309). -/
def extendAll (batches : List (List KubevalResult × List KubelinterResult))
    (st : FoldState) : FoldState :=
  batches.foldl
    (fun st b => ⟨st.all_kubeconform_results ++ b.1,
                  st.all_kubelinter_results ++ b.2⟩) st

/-- Helper: the extend loop over a concatenation is the composition of
the extend loops. -/
theorem extendAll_append (xs ys : List (List KubevalResult × List KubelinterResult))
    (st : FoldState) : extendAll (xs ++ ys) st = extendAll ys (extendAll xs st) := by
  unfold extendAll
  rw [List.foldl_append]

/-- C1: folding two result-set parts incrementally (second part folded
into the state left by the first) yields exactly the summary of folding
the concatenation in one step — the two states, and hence the recomputed
`ValidationSummary` values with all nine fields, are equal; and for the
batch loop of the code, accumulating any prefix of the batch list and then the
rest equals accumulating all batches, so the summary computed once at the
end equals the summary of the incremental accumulation. -/
theorem claim_C1 :
    (∀ k1 l1 k2 l2,
       summaryOf (foldResults (some (foldResults none k1 l1)) k2 l2)
         = summaryOf (foldResults none (k1 ++ k2) (l1 ++ l2)))
  ∧ (∀ (batches : List (List KubevalResult × List KubelinterResult)) (i : Nat),
       summaryOf (extendAll (batches.drop i) (extendAll (batches.take i) ⟨[], []⟩))
         = summaryOf (extendAll batches ⟨[], []⟩)) := by
  constructor
  · intro k1 l1 k2 l2
    rfl
  · intro batches i
    conv_rhs => rw [← List.take_append_drop i batches]
    rw [extendAll_append]

/-! ## BatchRunner: the per-batch checker loops

`_process_all_batches` (validate.py 278-305) runs the kubeconform loop
and then the kube-linter loop over the batch; `_process_single_batch`
(validate.py 124-153) has its own pair of loops.  The checker invocation
itself is external state, passed in as an oracle per file. -/

/-- Outcome of one checker call as seen by the loops: `ok` is a truthy
dict result (passes `if result and isinstance(result, dict)`), `notDict`
a falsy or non-dict return, `exc` an exception caught by the per-file
handler. -/
inductive ToolOutcome (α : Type) where
  | ok (r : α)
  | notDict
  | exc (msg : String)
deriving DecidableEq, Repr

/-- The result carried by an `ok` outcome, if any. -/
def ToolOutcome.toOption : ToolOutcome α → Option α
  | .ok r => some r
  | .notDict => none
  | .exc _ => none

/-- Whether the outcome passed the `result and isinstance(result, dict)`
guard. -/
def ToolOutcome.isOk : ToolOutcome α → Bool
  | .ok _ => true
  | .notDict => false
  | .exc _ => false

/-- The kubeconform loop of `_process_all_batches` (validate.py
279-290): appends each dict result, and appends the file to the
run-level `skipped_files` on a falsy result or an exception; no failure
stops the loop. -/
def kubeconformLoop (kc : String → ToolOutcome KubevalResult) :
    List String → List KubevalResult → List String →
      List KubevalResult × List String
  | [], results, skipped => (results, skipped)
  | f :: fs, results, skipped =>
    match kc f with
    | .ok r => kubeconformLoop kc fs (results ++ [r]) skipped
    | .notDict => kubeconformLoop kc fs results (skipped ++ [f])
    | .exc _ => kubeconformLoop kc fs results (skipped ++ [f])

/-- The kube-linter loop of `_process_all_batches` (validate.py
292-305): files already in `skipped_files` are not linted
(`if file_path not in skipped_files`); lint failures append to the same
skip list. -/
def kubelinterLoop (kl : String → ToolOutcome KubelinterResult) :
    List String → List KubelinterResult → List String →
      List KubelinterResult × List String
  | [], results, skipped => (results, skipped)
  | f :: fs, results, skipped =>
    if f ∈ skipped then kubelinterLoop kl fs results skipped
    else
      match kl f with
      | .ok r => kubelinterLoop kl fs (results ++ [r]) skipped
      | .notDict => kubelinterLoop kl fs results (skipped ++ [f])
      | .exc _ => kubelinterLoop kl fs results (skipped ++ [f])

/-- The per-batch results together with the updated run-level skip list. -/
structure BatchResults where
  kubeconform : List KubevalResult
  kubelinter : List KubelinterResult
  skipped_files : List String
deriving DecidableEq, Repr

/-- Both checker loops of one batch of `_process_all_batches`
(validate.py 274-305), threading the run-level `skipped_files`. -/
def processBatchFiles (kc : String → ToolOutcome KubevalResult)
    (kl : String → ToolOutcome KubelinterResult)
    (skipped0 : List String) (batch_files : List String) : BatchResults :=
  let kcout := kubeconformLoop kc batch_files [] skipped0
  let klout := kubelinterLoop kl batch_files [] kcout.2
  ⟨kcout.1, klout.1, klout.2⟩

/-- The kubeconform loop of `_process_single_batch` (validate.py
125-137), which also accumulates `processed_files`. -/
def singleBatchKubeconformLoop (kc : String → ToolOutcome KubevalResult) :
    List String → List KubevalResult → List String → List String →
      List KubevalResult × List String × List String
  | [], results, processed, skipped => (results, processed, skipped)
  | f :: fs, results, processed, skipped =>
    match kc f with
    | .ok r => singleBatchKubeconformLoop kc fs (results ++ [r]) (processed ++ [f]) skipped
    | .notDict => singleBatchKubeconformLoop kc fs results processed (skipped ++ [f])
    | .exc _ => singleBatchKubeconformLoop kc fs results processed (skipped ++ [f])

/-- The kube-linter loop of `_process_single_batch` (validate.py
139-153): it iterates `processed_files` (only files whose schema check
returned a dict) and drops failures silently. -/
def singleBatchKubelinterLoop (kl : String → ToolOutcome KubelinterResult) :
    List String → List KubelinterResult → List KubelinterResult
  | [], results => results
  | f :: fs, results =>
    match kl f with
    | .ok r => singleBatchKubelinterLoop kl fs (results ++ [r])
    | .notDict => singleBatchKubelinterLoop kl fs results
    | .exc _ => singleBatchKubelinterLoop kl fs results

/-! ## Batch-loop characterisation lemmas and claim C3 -/

/-- Helper: the kubeconform loop appends exactly the dict results, in
file order, and appends exactly the non-dict/raising files to the skip
list — no failure aborts the loop or affects later files. -/
theorem kubeconformLoop_spec (kc : String → ToolOutcome KubevalResult) :
    ∀ (batch : List String) (results : List KubevalResult) (skipped : List String),
      kubeconformLoop kc batch results skipped
        = (results ++ batch.filterMap (fun f => (kc f).toOption),
           skipped ++ batch.filter (fun f => !(kc f).isOk)) := by
  intro batch
  induction batch with
  | nil => intro results skipped; simp [kubeconformLoop]
  | cons f fs ih =>
    intro results skipped
    cases hkf : kc f with
    | ok r =>
      simp [kubeconformLoop, hkf, ih, ToolOutcome.toOption, ToolOutcome.isOk]
    | notDict =>
      simp [kubeconformLoop, hkf, ih, ToolOutcome.toOption, ToolOutcome.isOk]
    | exc m =>
      simp [kubeconformLoop, hkf, ih, ToolOutcome.toOption, ToolOutcome.isOk]

/-- Helper: provided no file of the (duplicate-free) batch is in the
skip list for a reason other than `P`, the kube-linter loop lints
exactly the files with `P f = false`, appending the dict results in
file order. -/
theorem kubelinterLoop_spec (kl : String → ToolOutcome KubelinterResult)
    (P : String → Bool) :
    ∀ (batch : List String) (results : List KubelinterResult) (skipped : List String),
      batch.Nodup →
      (∀ f ∈ batch, (f ∈ skipped ↔ P f = true)) →
      (kubelinterLoop kl batch results skipped).1
        = results ++ (batch.filter (fun f => !(P f))).filterMap (fun f => (kl f).toOption) := by
  intro batch
  induction batch with
  | nil => intro results skipped _ _; simp [kubelinterLoop]
  | cons f fs ih =>
    intro results skipped hnd hinv
    have hfs : fs.Nodup := (List.nodup_cons.mp hnd).2
    have hfmem : f ∉ fs := (List.nodup_cons.mp hnd).1
    by_cases hP : P f = true
    · have hmem : f ∈ skipped := (hinv f (List.mem_cons_self f fs)).mpr hP
      rw [kubelinterLoop, if_pos hmem]
      rw [ih results skipped hfs (fun g hg => hinv g (List.mem_cons_of_mem f hg))]
      simp [hP]
    · have hmem : f ∉ skipped := fun hm => hP ((hinv f (List.mem_cons_self f fs)).mp hm)
      rw [kubelinterLoop, if_neg hmem]
      have hPf : P f = false := by
        cases hPf : P f with
        | true => exact absurd hPf hP
        | false => rfl
      cases hkf : kl f with
      | ok r =>
        rw [ih (results ++ [r]) skipped hfs (fun g hg => hinv g (List.mem_cons_of_mem f hg))]
        simp [hPf, hkf, ToolOutcome.toOption]
      | notDict =>
        have hinv' : ∀ g ∈ fs, (g ∈ skipped ++ [f] ↔ P g = true) := by
          intro g hg
          have hne : g ≠ f := fun he => hfmem (he ▸ hg)
          simp only [List.mem_append, List.mem_singleton]
          constructor
          · rintro (hm | hm)
            · exact (hinv g (List.mem_cons_of_mem f hg)).mp hm
            · exact absurd hm hne
          · intro hm
            exact Or.inl ((hinv g (List.mem_cons_of_mem f hg)).mpr hm)
        rw [ih results (skipped ++ [f]) hfs hinv']
        simp [hPf, hkf, ToolOutcome.toOption]
      | exc m =>
        have hinv' : ∀ g ∈ fs, (g ∈ skipped ++ [f] ↔ P g = true) := by
          intro g hg
          have hne : g ≠ f := fun he => hfmem (he ▸ hg)
          simp only [List.mem_append, List.mem_singleton]
          constructor
          · rintro (hm | hm)
            · exact (hinv g (List.mem_cons_of_mem f hg)).mp hm
            · exact absurd hm hne
          · intro hm
            exact Or.inl ((hinv g (List.mem_cons_of_mem f hg)).mpr hm)
        rw [ih results (skipped ++ [f]) hfs hinv']
        simp [hPf, hkf, ToolOutcome.toOption]

/-- Helper: the single-batch kubeconform loop collects the dict results
and marks exactly the schema-dict files as processed. -/
theorem singleBatchKubeconformLoop_spec (kc : String → ToolOutcome KubevalResult) :
    ∀ (batch : List String) (results : List KubevalResult)
      (processed skipped : List String),
      singleBatchKubeconformLoop kc batch results processed skipped
        = (results ++ batch.filterMap (fun f => (kc f).toOption),
           processed ++ batch.filter (fun f => (kc f).isOk),
           skipped ++ batch.filter (fun f => !(kc f).isOk)) := by
  intro batch
  induction batch with
  | nil => intro results processed skipped; simp [singleBatchKubeconformLoop]
  | cons f fs ih =>
    intro results processed skipped
    cases hkf : kc f with
    | ok r =>
      simp [singleBatchKubeconformLoop, hkf, ih, ToolOutcome.toOption, ToolOutcome.isOk]
    | notDict =>
      simp [singleBatchKubeconformLoop, hkf, ih, ToolOutcome.toOption, ToolOutcome.isOk]
    | exc m =>
      simp [singleBatchKubeconformLoop, hkf, ih, ToolOutcome.toOption, ToolOutcome.isOk]

/-- Helper: the single-batch kube-linter loop collects the dict lint
results of the files it is given, dropping failures silently. -/
theorem singleBatchKubelinterLoop_spec (kl : String → ToolOutcome KubelinterResult) :
    ∀ (files : List String) (results : List KubelinterResult),
      singleBatchKubelinterLoop kl files results
        = results ++ files.filterMap (fun f => (kl f).toOption) := by
  intro files
  induction files with
  | nil => intro results; simp [singleBatchKubelinterLoop]
  | cons f fs ih =>
    intro results
    cases hkf : kl f with
    | ok r => simp [singleBatchKubelinterLoop, hkf, ih, ToolOutcome.toOption]
    | notDict => simp [singleBatchKubelinterLoop, hkf, ih, ToolOutcome.toOption]
    | exc m => simp [singleBatchKubelinterLoop, hkf, ih, ToolOutcome.toOption]

/-- C3 (amended): within a batch no per-file failure aborts the loops or
affects later files — the schema check of every file is attempted and all dict
results are returned in file order — but the isolation is not
per-(file, checker): a file whose schema check raises (or returns a
non-dict) is appended to `skipped_files`, its lint run is suppressed by
the `file_path not in skipped_files` guard, and no CheckResult with a
tool error is recorded for it; only a file whose schema check returns a
dict (valid or invalid) is linted.  The single-batch path behaves the
same way through its `processed_files` list. -/
theorem claim_C3 (kc : String → ToolOutcome KubevalResult)
    (kl : String → ToolOutcome KubelinterResult)
    (skipped0 : List String) (batch_files : List String)
    (hnd : batch_files.Nodup)
    (hdisj : ∀ f ∈ batch_files, f ∉ skipped0) :
    (processBatchFiles kc kl skipped0 batch_files).kubeconform
        = batch_files.filterMap (fun f => (kc f).toOption)
  ∧ (processBatchFiles kc kl skipped0 batch_files).kubelinter
        = (batch_files.filter (fun f => (kc f).isOk)).filterMap (fun f => (kl f).toOption)
  ∧ (kubeconformLoop kc batch_files [] skipped0).2
        = skipped0 ++ batch_files.filter (fun f => !(kc f).isOk)
  ∧ (singleBatchKubeconformLoop kc batch_files [] [] []).2.1
        = batch_files.filter (fun f => (kc f).isOk)
  ∧ singleBatchKubelinterLoop kl (singleBatchKubeconformLoop kc batch_files [] [] []).2.1 []
        = (batch_files.filter (fun f => (kc f).isOk)).filterMap (fun f => (kl f).toOption) := by
  have hkc := kubeconformLoop_spec kc batch_files [] skipped0
  have hsk : (kubeconformLoop kc batch_files [] skipped0).2
      = skipped0 ++ batch_files.filter (fun f => !(kc f).isOk) := by rw [hkc]
  have hinv : ∀ f ∈ batch_files,
      (f ∈ (kubeconformLoop kc batch_files [] skipped0).2 ↔ (!(kc f).isOk) = true) := by
    intro f hf
    rw [hsk]
    simp only [List.mem_append, List.mem_filter]
    constructor
    · rintro (hm | ⟨-, hm⟩)
      · exact absurd hm (hdisj f hf)
      · exact hm
    · intro hm; exact Or.inr ⟨hf, hm⟩
  refine ⟨?_, ?_, hsk, ?_, ?_⟩
  · show (kubeconformLoop kc batch_files [] skipped0).1 = _
    rw [hkc]
    simp
  · show (kubelinterLoop kl batch_files []
      (kubeconformLoop kc batch_files [] skipped0).2).1 = _
    rw [kubelinterLoop_spec kl (fun f => !(kc f).isOk) batch_files [] _ hnd hinv]
    simp [Bool.not_not]
  · rw [singleBatchKubeconformLoop_spec]
    simp
  · rw [singleBatchKubeconformLoop_spec]
    simp only [List.nil_append]
    rw [singleBatchKubelinterLoop_spec]
    simp

/-- Checker oracle for the C3 counterexample: the schema check raises on
`a.yaml` and returns an (invalid) dict result for every other file. -/
def kcCE : String → ToolOutcome KubevalResult := fun f =>
  if f = "a.yaml" then .exc "kubeconform raised on this file"
  else .ok { file := f, valid := false, errors := [] }

/-- Lint oracle for the C3 counterexample: always succeeds. -/
def klCE : String → ToolOutcome KubelinterResult := fun f =>
  .ok { file := f, valid := true, kubelinter_output := some ⟨[]⟩, errors := [] }

/-- C3 counterexample: in the batch `[a.yaml, b.yaml]` where the schema
checker raises on `a.yaml` and the lint checker always succeeds, the
lint loop produces a result for `b.yaml` only — the lint run of `a.yaml` is
suppressed, and no CheckResult (with or without a tool error) is
recorded for `a.yaml`, which is merely added to `skipped_files`;
contradicting the claim that a schema-check failure never skips later
checkers on the same file and that the failing pair is recorded as a
tool error. -/
theorem claim_C3_counterexample :
    (processBatchFiles kcCE klCE [] ["a.yaml", "b.yaml"]).kubelinter
      = [{ file := "b.yaml", valid := true, kubelinter_output := some ⟨[]⟩, errors := [] }]
  ∧ ((processBatchFiles kcCE klCE [] ["a.yaml", "b.yaml"]).kubelinter.all
       (fun r => r.file != "a.yaml")) = true
  ∧ ((processBatchFiles kcCE klCE [] ["a.yaml", "b.yaml"]).kubeconform.all
       (fun r => r.file != "a.yaml")) = true
  ∧ (processBatchFiles kcCE klCE [] ["a.yaml", "b.yaml"]).skipped_files = ["a.yaml"] := by
  decide

/-- C3 witness: the amended characterisation applied to the concrete
two-file batch. -/
theorem claim_C3_witness :
    (processBatchFiles kcCE klCE [] ["a.yaml", "b.yaml"]).kubeconform
      = ["a.yaml", "b.yaml"].filterMap (fun f => (kcCE f).toOption) :=
  (claim_C3 kcCE klCE [] ["a.yaml", "b.yaml"] (by decide) (by decide)).1

/-! ## BatchOrchestrator: `_process_all_batches` (validate.py 213-507),
`validate_repository` (70-99) and the exit-code logic of `main` (725-738)

Python return dicts are embedded as ordered association lists over a
small value type, so that both the presence and the absence of a key is
statable.  The deterministic environment of a run (checker behaviour per
file, report-sink write outcomes per batch, the Summarizer text, the
clock) is a `RunEnv` record.  The Summarizer (AI) call is tracked by a
ghost flag `agentCalled` on the run output. -/

/-- One entry of the `skipped_batches` list (validate.py 399-403). -/
structure SkippedBatch where
  batch_number : Nat
  files : List String
  error : String
deriving DecidableEq, Repr

/-- Values stored in the returned report dicts. -/
inductive Val where
  | s (x : String)
  | n (x : Nat)
  | strList (xs : List String)
  | kcResults (xs : List KubevalResult)
  | klResults (xs : List KubelinterResult)
  | skippedB (xs : List SkippedBatch)
deriving DecidableEq, Repr

/-- The deterministic environment of one repository run. -/
structure RunEnv where
  kc : String → ToolOutcome KubevalResult
  kl : String → ToolOutcome KubelinterResult
  outputFile : Bool
  reportWrite : Nat → Option String
  aiReport : String
  timestamp : String

/-- The run result: the returned dict plus a ghost flag recording
whether the Summarizer (the AI call inside
`generate_comprehensive_report`) was reached. -/
structure RunOut where
  result : List (String × Val)
  agentCalled : Bool
deriving DecidableEq, Repr

/-- Joins strings with a separator (model of `", ".join(...)`). -/
def joinWith (sep : String) : List String → String
  | [] => ""
  | [x] => x
  | x :: xs => x ++ sep ++ joinWith sep xs

/-- The warning count of a batch (validate.py 313-319). -/
def batchWarningCount (bkl : List KubelinterResult) : Nat :=
  bkl.foldl
    (fun acc r =>
      match r.kubelinter_output with
      | none => acc
      | some out => acc + out.Reports.length) 0

/-- The per-batch report fragment (validate.py 329-371).  The exact
prose of the fragment is immaterial to every claim; the model keeps the
header counts and file list of the source and abbreviates the per-issue
lines. -/
def batchReportText (batch_num total_batches : Nat) (batch_files : List String)
    (bkc : List KubevalResult) (bkl : List KubelinterResult) : String :=
  "🔄 BATCH " ++ toString batch_num ++ "/" ++ toString total_batches ++ " ANALYSIS\n"
    ++ "Files in Batch: " ++ joinWith ", " (batch_files.map basename) ++ "\n"
    ++ "Schema Validation Errors: "
    ++ toString (bkc.filter (fun r => !r.valid)).length ++ "\n"
    ++ "Best Practice Warnings: " ++ toString (batchWarningCount bkl) ++ "\n"

/-- The mutable state of the batch loop (validate.py 244-248). -/
structure LoopState where
  all_kubeconform_results : List KubevalResult
  all_kubelinter_results : List KubelinterResult
  skipped_batches : List SkippedBatch
  skipped_files : List String
  batch_reports : List String
deriving DecidableEq, Repr

/-- One iteration of the batch loop (validate.py 270-404).  The per-file
loops run first and extend the run-level skip list; the batch results
are then appended to the accumulated lists (lines 307-309); finally the
batch report is written to the sink.  The only statement of the
per-batch `try` block that realistically raises is that write (lines
374-376) — it runs after the extends — so the batch-level exception of
the `except` handler (381-404) is modelled there: on a write failure the
batch is appended to `skipped_batches` (with its basenames and the
error text) and its report is not added to `batch_reports`; the error
note written to the sink by the handler itself is assumed to succeed. -/
def runBatch (env : RunEnv) (total_batches batch_num : Nat)
    (batch_files : List String) (st : LoopState) : LoopState :=
  let bres := processBatchFiles env.kc env.kl st.skipped_files batch_files
  let all_kc := st.all_kubeconform_results ++ bres.kubeconform
  let all_kl := st.all_kubelinter_results ++ bres.kubelinter
  let report := batchReportText batch_num total_batches batch_files
    bres.kubeconform bres.kubelinter
  match (if env.outputFile then env.reportWrite batch_num else none) with
  | some e =>
      { all_kubeconform_results := all_kc
        all_kubelinter_results := all_kl
        skipped_batches := st.skipped_batches
          ++ [⟨batch_num, batch_files.map basename, e⟩]
        skipped_files := bres.skipped_files
        batch_reports := st.batch_reports }
  | none =>
      { all_kubeconform_results := all_kc
        all_kubelinter_results := all_kl
        skipped_batches := st.skipped_batches
        skipped_files := bres.skipped_files
        batch_reports := st.batch_reports ++ [report] }

/-- The batch loop (`for batch_num, batch_files in enumerate(batches,
1)`, validate.py 270). -/
def batchLoop (env : RunEnv) (total_batches : Nat) :
    List (List String) → Nat → LoopState → LoopState
  | [], _, st => st
  | b :: bs, batch_num, st =>
      batchLoop env total_batches bs (batch_num + 1)
        (runBatch env total_batches batch_num b st)

/-- The final report assembly (validate.py 444-472): the AI report,
then the batch fragments, then processing notes listing skip counts.
Prose abbreviated; no claim inspects this text. -/
def assembleFinalReport (detailed : String) (st : LoopState) : String :=
  detailed
    ++ (if st.batch_reports.isEmpty then ""
        else "\n\n📊 BATCH-BY-BATCH ANALYSIS DETAILS\n"
          ++ joinWith "" st.batch_reports)
    ++ (if st.skipped_batches.isEmpty && st.skipped_files.isEmpty then ""
        else "\n\n⚠️ PROCESSING NOTES: "
          ++ toString st.skipped_batches.length ++ " batches and "
          ++ toString st.skipped_files.eraseDups.length
          ++ " files were skipped due to processing errors\n")

/-- The state left by the batch loop over all batches of a run
(validate.py 264-404): the loop starts from empty accumulators at batch
number 1. -/
def finalLoopState (env : RunEnv) (k8s_files : List String) (batch_size : Nat) :
    LoopState :=
  batchLoop env (partitionBatches batch_size k8s_files).length
    (partitionBatches batch_size k8s_files) 1 ⟨[], [], [], [], []⟩

/-- Model of `_process_all_batches` (validate.py 213-507).  The file
list is the one found by the embedded fetcher (the source re-clones and
re-finds inside; a deterministic run yields the same list).  The four
returns of the source are transcribed key for key: the `no_files`
return (231-239), the all-batches-failed return (406-417), the success
return (478-496), and the outer `except` return (498-507), which is
where the `AttributeError` of the aggregation surfaces since
`generate_comprehensive_report` (line 440) runs inside the outer `try`. -/
def processAllBatches (env : RunEnv) (k8s_files : List String) (batch_size : Nat)
    (target_repo branch : String) : RunOut :=
  if k8s_files.isEmpty then
    ⟨[("status", Val.s "no_files"),
      ("message", Val.s "No Kubernetes files found"),
      ("kubeconform_results", Val.kcResults []),
      ("kubelinter_results", Val.klResults []),
      ("report", Val.s "No Kubernetes files found in the repository.")], false⟩
  else
    let total_batches := (partitionBatches batch_size k8s_files).length
    let st := finalLoopState env k8s_files batch_size
    if st.all_kubeconform_results.isEmpty && st.all_kubelinter_results.isEmpty then
      ⟨[("status", Val.s "error"),
        ("error", Val.s "All batches failed during processing"),
        ("skipped_batches", Val.skippedB st.skipped_batches),
        ("skipped_files", Val.strList st.skipped_files),
        ("kubeconform_results", Val.kcResults []),
        ("kubelinter_results", Val.klResults []),
        ("report", Val.s "All batches failed during validation processing.")], false⟩
    else
      match analyze_combined_results (st.all_kubeconform_results.map some)
          (st.all_kubelinter_results.map some) with
      | .error e =>
          ⟨[("status", Val.s "error"),
            ("error", Val.s e),
            ("kubeconform_results", Val.kcResults []),
            ("kubelinter_results", Val.klResults []),
            ("report", Val.s ("❌ Validation failed: " ++ e))], false⟩
      | .ok _ =>
          let total_processed_files :=
            ((st.all_kubeconform_results.map KubevalResult.file)
              ++ (st.all_kubelinter_results.map KubelinterResult.file)).eraseDups.length
          ⟨[("status", Val.s "success"),
            ("repository", Val.s target_repo),
            ("branch", Val.s branch),
            ("timestamp", Val.s env.timestamp),
            ("total_files", Val.n k8s_files.length),
            ("processed_files", Val.n total_processed_files),
            ("skipped_files", Val.n st.skipped_files.eraseDups.length),
            ("batches_processed", Val.n (total_batches - st.skipped_batches.length)),
            ("batches_skipped", Val.n st.skipped_batches.length),
            ("batch_size", Val.n batch_size),
            ("skipped_batches", Val.skippedB st.skipped_batches),
            ("skipped_file_list", Val.strList st.skipped_files.eraseDups),
            ("batch_reports", Val.strList st.batch_reports),
            ("kubeconform_results", Val.kcResults st.all_kubeconform_results),
            ("kubelinter_results", Val.klResults st.all_kubelinter_results),
            ("report", Val.s (assembleFinalReport env.aiReport st)),
            ("files_validated", Val.n total_processed_files)], true⟩

/-- Model of `validate_repository` (validate.py 70-99) on the
multi-batch path: the early guard at lines 87-88 returns a plain
error dict (with no `report` key) whenever the discovered file list is
empty, before `_process_all_batches` is reached; otherwise the run is
delegated (single-batch mode is out of scope of the claims on this
path). -/
def validate_repository (env : RunEnv) (k8s_files : List String) (batch_size : Nat)
    (target_repo branch : String) : RunOut :=
  if k8s_files.isEmpty then
    ⟨[("status", Val.s "error"),
      ("error", Val.s "No Kubernetes files found in repository")], false⟩
  else
    processAllBatches env k8s_files batch_size target_repo branch

/-- The exit-code logic of `main` (validate.py 725-738): 1 for status
`error`, 2 for status `no_files`, otherwise 0 when no result is invalid
and 3 otherwise. -/
def mainExitCode (r : List (String × Val)) : Nat :=
  if r.lookup "status" = some (Val.s "error") then 1
  else if r.lookup "status" = some (Val.s "no_files") then 2
  else
    let kc := match r.lookup "kubeconform_results" with
      | some (Val.kcResults xs) => xs
      | _ => []
    let kl := match r.lookup "kubelinter_results" with
      | some (Val.klResults xs) => xs
      | _ => []
    let validation_failures := (kc.filter (fun x => !x.valid)).length
    let linting_issues := (kl.filter (fun x => !x.valid)).length
    if validation_failures == 0 && linting_issues == 0 then 0 else 3

/-! ## Claims C6 and C7 -/

/-- C6 (supporting theorem for a code bug): on an empty discovered file
list, `validate_repository` returns from its early guard (validate.py
87-88) with status `error` and no `report` key, so `main` exits with
code 1 and prints the `No report generated` fallback, and the
Summarizer is never called.  The claimed behaviour — status `no_files`,
the report text "No Kubernetes files found in the repository.", exit
code 2 — is exactly what the `no_files` branch of `_process_all_batches`
(231-239) and `main` (727) implement, but that branch is unreachable:
it re-derives the same (empty) file list the guard already rejected.
A summary computed over the empty result set would indeed have
`total_files = 0`, but no summary is produced on either path. -/
theorem claim_C6 (env : RunEnv) (batch_size : Nat) (target_repo branch : String) :
    validate_repository env [] batch_size target_repo branch
      = ⟨[("status", Val.s "error"),
          ("error", Val.s "No Kubernetes files found in repository")], false⟩
  ∧ mainExitCode (validate_repository env [] batch_size target_repo branch).result = 1
  ∧ (validate_repository env [] batch_size target_repo branch).result.lookup "report" = none
  ∧ processAllBatches env [] batch_size target_repo branch
      = ⟨[("status", Val.s "no_files"),
          ("message", Val.s "No Kubernetes files found"),
          ("kubeconform_results", Val.kcResults []),
          ("kubelinter_results", Val.klResults []),
          ("report", Val.s "No Kubernetes files found in the repository.")], false⟩
  ∧ mainExitCode (processAllBatches env [] batch_size target_repo branch).result = 2
  ∧ analyze_combined_results [] []
      = .ok { total_files := 0, valid_files := 0, invalid_files := 0, total_errors := 0,
              total_warnings := 0, error_types := [], warning_types := [],
              recommendations := [], fixes := [] } :=
  ⟨rfl, rfl, rfl, rfl, rfl, rfl⟩

/-- Helper: when the sink write fails for every batch, each batch lands
in `skipped_batches` and no fragment reaches `batch_reports`. -/
theorem batchLoop_allFail (env : RunEnv) (total : Nat)
    (hout : env.outputFile = true)
    (hfail : ∀ k, (env.reportWrite k).isSome) :
    ∀ (bs : List (List String)) (batch_num : Nat) (st : LoopState),
      (batchLoop env total bs batch_num st).skipped_batches.length
          = st.skipped_batches.length + bs.length
      ∧ (batchLoop env total bs batch_num st).batch_reports = st.batch_reports := by
  intro bs
  induction bs with
  | nil => intro batch_num st; simp [batchLoop]
  | cons b bs ih =>
    intro batch_num st
    obtain ⟨e, he⟩ := Option.isSome_iff_exists.mp (hfail batch_num)
    have hrun : runBatch env total batch_num b st
        = { all_kubeconform_results := st.all_kubeconform_results
              ++ (processBatchFiles env.kc env.kl st.skipped_files b).kubeconform
            all_kubelinter_results := st.all_kubelinter_results
              ++ (processBatchFiles env.kc env.kl st.skipped_files b).kubelinter
            skipped_batches := st.skipped_batches ++ [⟨batch_num, b.map basename, e⟩]
            skipped_files := (processBatchFiles env.kc env.kl st.skipped_files b).skipped_files
            batch_reports := st.batch_reports } := by
      simp only [runBatch, hout, if_true, he]
    rw [batchLoop, hrun]
    obtain ⟨h1, h2⟩ := ih (batch_num + 1) _
    refine ⟨?_, h2⟩
    rw [h1]
    simp
    omega

/-- C7 (amended): a batch-level error can only arise at the batch-report
write, which runs after the results of the batch were already appended to the
accumulators, so even when EVERY batch fails the run does not take the
all-batches-failed exit unless the accumulators are also empty.  When
every batch write fails: every batch is recorded in `skipped_batches`
(with its reason) and no fragment reaches `batch_reports`; if no results
at all were accumulated the run returns the overall-error dict — status
`error`, no summary, reasons in `skipped_batches`, and NO
`batches_processed` key at all — and the Summarizer is not called; if
results were accumulated (and the aggregation does not raise) the run
returns status `success` with `batches_processed = 0` and the Summarizer
IS called. -/
theorem claim_C7 (env : RunEnv) (k8s_files : List String) (batch_size : Nat)
    (target_repo branch : String)
    (hne : k8s_files.isEmpty = false)
    (hout : env.outputFile = true)
    (hfail : ∀ k, (env.reportWrite k).isSome) :
    (finalLoopState env k8s_files batch_size).skipped_batches.length
        = (partitionBatches batch_size k8s_files).length
  ∧ (finalLoopState env k8s_files batch_size).batch_reports = []
  ∧ (((finalLoopState env k8s_files batch_size).all_kubeconform_results.isEmpty
        && (finalLoopState env k8s_files batch_size).all_kubelinter_results.isEmpty) = true →
       processAllBatches env k8s_files batch_size target_repo branch
         = ⟨[("status", Val.s "error"),
             ("error", Val.s "All batches failed during processing"),
             ("skipped_batches",
               Val.skippedB (finalLoopState env k8s_files batch_size).skipped_batches),
             ("skipped_files",
               Val.strList (finalLoopState env k8s_files batch_size).skipped_files),
             ("kubeconform_results", Val.kcResults []),
             ("kubelinter_results", Val.klResults []),
             ("report", Val.s "All batches failed during validation processing.")], false⟩
       ∧ (processAllBatches env k8s_files batch_size target_repo branch).result.lookup
            "batches_processed" = none
       ∧ (processAllBatches env k8s_files batch_size target_repo branch).agentCalled = false)
  ∧ (∀ s, ((finalLoopState env k8s_files batch_size).all_kubeconform_results.isEmpty
        && (finalLoopState env k8s_files batch_size).all_kubelinter_results.isEmpty) = false →
       analyze_combined_results
           ((finalLoopState env k8s_files batch_size).all_kubeconform_results.map some)
           ((finalLoopState env k8s_files batch_size).all_kubelinter_results.map some)
         = .ok s →
       (processAllBatches env k8s_files batch_size target_repo branch).result.lookup
           "status" = some (Val.s "success")
       ∧ (processAllBatches env k8s_files batch_size target_repo branch).result.lookup
           "batches_processed" = some (Val.n 0)
       ∧ (processAllBatches env k8s_files batch_size target_repo branch).agentCalled
           = true) := by
  have hsb := batchLoop_allFail env (partitionBatches batch_size k8s_files).length hout hfail
      (partitionBatches batch_size k8s_files) 1 ⟨[], [], [], [], []⟩
  have h1 : (finalLoopState env k8s_files batch_size).skipped_batches.length
      = (partitionBatches batch_size k8s_files).length := by
    unfold finalLoopState
    simpa using hsb.1
  have h2 : (finalLoopState env k8s_files batch_size).batch_reports = [] := by
    unfold finalLoopState
    simpa using hsb.2
  refine ⟨h1, h2, ?_, ?_⟩
  · intro hemp
    have hP : processAllBatches env k8s_files batch_size target_repo branch
        = ⟨[("status", Val.s "error"),
            ("error", Val.s "All batches failed during processing"),
            ("skipped_batches",
              Val.skippedB (finalLoopState env k8s_files batch_size).skipped_batches),
            ("skipped_files",
              Val.strList (finalLoopState env k8s_files batch_size).skipped_files),
            ("kubeconform_results", Val.kcResults []),
            ("kubelinter_results", Val.klResults []),
            ("report", Val.s "All batches failed during validation processing.")], false⟩ := by
      simp only [processAllBatches, hne, Bool.false_eq_true, if_false]
      rw [if_pos hemp]
    exact ⟨hP, by rw [hP]; rfl, by rw [hP]⟩
  · intro s hemp hok
    simp only [processAllBatches, hne, Bool.false_eq_true, if_false]
    rw [if_neg (by simp [hemp]), hok]
    refine ⟨rfl, ?_, rfl⟩
    rw [h1, Nat.sub_self]
    rfl

/-- Environment of the C7 counterexample: both checkers return clean
dict results and the batch-report write fails for every batch. -/
def envC7 : RunEnv :=
  { kc := fun f => .ok { file := f, valid := true, errors := [] }
    kl := fun f => .ok { file := f, valid := true, kubelinter_output := some ⟨[]⟩,
                         errors := [] }
    outputFile := true
    reportWrite := fun _ => some "disk full: batch report write failed"
    aiReport := "AI narrative"
    timestamp := "2026-01-01T00:00:00" }

/-- The same environment except every schema check returns a non-dict,
so nothing is ever accumulated. -/
def envC7empty : RunEnv := { envC7 with kc := fun _ => .notDict }

/-- C7 counterexample: two concrete runs in which EVERY batch fails with
a batch-level (sink write) error.  Run one accumulates results before
the write fails, so the run ends with status `success` (not an error
status), a generated summary (the Summarizer is called) and
`batches_processed = 0` — contradicting "terminates with status
total-failure ... overall error status with no summary".  Run two
accumulates nothing, takes the all-batches-failed exit with status
`error`, and its returned report object has NO `batches_processed` key
at all — contradicting "reports batchesProcessed = 0". -/
theorem claim_C7_counterexample :
    ((processAllBatches envC7 ["dir/a.yaml", "dir/b.yaml"] 2 "repo" "main").result.lookup
        "status" = some (Val.s "success")
     ∧ (processAllBatches envC7 ["dir/a.yaml", "dir/b.yaml"] 2 "repo" "main").result.lookup
         "batches_processed" = some (Val.n 0)
     ∧ (processAllBatches envC7 ["dir/a.yaml", "dir/b.yaml"] 2 "repo" "main").result.lookup
         "skipped_batches" = some (Val.skippedB
           [⟨1, ["a.yaml", "b.yaml"], "disk full: batch report write failed"⟩])
     ∧ (processAllBatches envC7 ["dir/a.yaml", "dir/b.yaml"] 2 "repo" "main").agentCalled
         = true)
  ∧ ((processAllBatches envC7empty ["dir/a.yaml", "dir/b.yaml"] 2 "repo" "main").result.lookup
        "status" = some (Val.s "error")
     ∧ (processAllBatches envC7empty ["dir/a.yaml", "dir/b.yaml"] 2 "repo" "main").result.lookup
        "batches_processed" = none
     ∧ (processAllBatches envC7empty ["dir/a.yaml", "dir/b.yaml"] 2 "repo" "main").agentCalled
        = false) :=
  ⟨⟨rfl, rfl, rfl, rfl⟩, rfl, rfl, rfl⟩

/-- C7 witness: the amended theorem applied to the first counterexample
run, discharging its hypotheses. -/
theorem claim_C7_witness :
    (finalLoopState envC7 ["dir/a.yaml", "dir/b.yaml"] 2).skipped_batches.length
      = (partitionBatches 2 ["dir/a.yaml", "dir/b.yaml"]).length :=
  (claim_C7 envC7 ["dir/a.yaml", "dir/b.yaml"] 2 "repo" "main" rfl rfl (fun _ => rfl)).1
